import Mathlib

/-!
Verification of the plan / generate / execute / retry workflow of
src/src/graph/workflow.py (create_workflow and its inner node functions),
as a shallow embedding: the language model calls and the Python exec
primitive are opaque functions packed into an environment, every node
function is translated directly from the source, and the compiled graph
is a step function on (node, session-state) pairs.
-/

set_option autoImplicit false

namespace VizWorkflow

/-- Opaque token standing for a non-null Python object (for example the
dictionary a generated snippet binds to output_dict).  A Python attribute
that may also hold the Python value None is modelled as an Option PyObj. -/
abbrev PyObj := Nat

/-- The tabular dataset, abstracted to exactly the three things
df_schema_preview reads from it: the head rows rendered as markdown, the
column-name list, and the column/dtype pairs. -/
structure DataFrame where
  headMarkdown : String
  columns : List String
  dtypes : List (String × String)
deriving DecidableEq

/-- Structured output schema of the code-synthesis model calls: a single
field holding the final runnable code text (the Code model the source
passes to llm.with_structured_output). -/
structure Code where
  final_code : String
deriving DecidableEq

/-- Session State threaded through the graph, with exactly the fields the
workflow reads and writes: user_query, task_plan, code, error, iterations,
output and answer.  Optional text fields use none for the Python value
None; output uses none both for Python None and for not-yet-set, exactly
as the Python record does. -/
structure State where
  user_query : String
  task_plan : Option String
  code : Option String
  error : Option String
  iterations : Nat
  output : Option PyObj
  answer : Option String
deriving DecidableEq

/-- A value bound in the exec namespace: the dataset handle, one of the
six utilities imported at the top of execute_with_exec (pandas,
plotly.express, numpy, re, datetime.datetime, plotly.graph_objects), or
the builtins module that the Python exec primitive itself injects into a
globals dict lacking a __builtins__ key. -/
inductive Binding where
  | dataset (df : DataFrame)
  | pandasModule
  | plotlyExpressModule
  | numpyModule
  | reModule
  | datetimeClass
  | plotlyGraphObjectsModule
  | builtinsModule
deriving DecidableEq

/-- Outcome of exec(code, exec_globals, exec_locals): either an exception
was raised (carrying str(e)), or execution finished and outputDict records
whether exec_locals contains the key output_dict, and if so which value
(some none is the key bound to the Python value None). -/
inductive ExecOutcome where
  | raised (msg : String)
  | finished (outputDict : Option (Option PyObj))
deriving DecidableEq

/-- The external collaborators captured by the create_workflow closure:
the dataset df, the language model behind each prompt chain (opaque
functions from the prompt inputs actually supplied by the source to the
model response), and the Python exec primitive (an opaque function from
the supplied global namespace and code text to an outcome). -/
structure Env where
  df : DataFrame
  planLLM : String × String × String → String → String
  freshCodeLLM : String × String × String → String → String → Code
  repairCodeLLM : String → Code
  formatLLM : String → Option PyObj → String
  execRun : List (String × Binding) → Option String → ExecOutcome

/-- df_schema_preview: the markdown head preview, the column table built
by the first loop, and the column/dtype table built by the second loop. -/
def df_schema_preview (df : DataFrame) : String × String × String :=
  let data_frame_preview := df.headMarkdown
  let available_columns :=
    df.columns.foldl (fun acc col => acc ++ "| " ++ col ++ " |\n")
      "| Column Name |\n|--------|\n"
  let column_data_types :=
    df.dtypes.foldl (fun acc cd => acc ++ "| " ++ cd.1 ++ " | " ++ cd.2 ++ " |\n")
      "| Column Name | Data Type |\n|---------|--------|\n"
  (data_frame_preview, available_columns, column_data_types)

/-- Rendering of an optional string the way a Python f-string or prompt
template renders the underlying value: None prints as the text None. -/
def pyStr : Option String → String
  | none => "None"
  | some t => t

/-- Python truthiness of an optional string field: None and the empty
string are falsy, every other string is truthy.  This is the test
`if error:` performed by execute_task. -/
def pyTruthy : Option String → Bool
  | none => false
  | some t => t != ""

/-- The repair-mode instruction string execute_task builds when error is
truthy, interpolating the prior error, the prior code and the task plan. -/
def repairInstruction (error code task_plan : Option String) : String :=
  "You have been given error: " ++ pyStr error ++ " and Python code: " ++ pyStr code ++
    " along with Task Plan " ++ pyStr task_plan ++
    ". Please fix the error and generate the correct python code to perform the task plan. Donot change the task plan and the column names. Use the existing \x27df\x27 and strictly follow the given plan."

/-- plan_task node (Plan Synthesizer): one model call over the schema
preview and the user question; the returned update writes task_plan and
nothing else. -/
def plan_task (env : Env) (s : State) : State :=
  { s with task_plan := some (env.planLLM (df_schema_preview env.df) s.user_query) }

/-- execute_task node (Code Synthesizer): repair mode when error is
truthy (one instruction string embedding error, code and task plan, sent
to the structured-output model), fresh mode otherwise (schema preview,
execution plan and user question); both modes overwrite code with the
structured final_code and increment iterations by one. -/
def execute_task (env : Env) (s : State) : State :=
  if pyTruthy s.error then
    { s with
        code := some ((env.repairCodeLLM
          (repairInstruction s.error s.code s.task_plan)).final_code),
        iterations := s.iterations + 1 }
  else
    { s with
        code := some ((env.freshCodeLLM (df_schema_preview env.df)
          (pyStr s.task_plan) s.user_query).final_code),
        iterations := s.iterations + 1 }

/-- The exec_globals namespace built by execute_with_exec: exactly df plus
the six imported utilities, in source order. -/
def exec_globals (df : DataFrame) : List (String × Binding) :=
  [("df", Binding.dataset df), ("pd", Binding.pandasModule),
   ("px", Binding.plotlyExpressModule), ("np", Binding.numpyModule),
   ("re", Binding.reModule), ("dt", Binding.datetimeClass),
   ("go", Binding.plotlyGraphObjectsModule)]

/-- The allow-list as the spec words it: the dataset itself plus pandas,
plotly express, numpy, re, datetime and plotly graph_objects. -/
def specAllowList (df : DataFrame) : List Binding :=
  [Binding.dataset df, Binding.pandasModule, Binding.plotlyExpressModule,
   Binding.numpyModule, Binding.reModule, Binding.datetimeClass,
   Binding.plotlyGraphObjectsModule]

/-- The namespace in which the exec call actually runs the code: the
documented behaviour of the Python exec builtin used at the call site is
to insert a __builtins__ binding into the supplied globals dict whenever
that dict has no such key, which the dict built by execute_with_exec
never has.  Generated code therefore also sees this injected binding. -/
def executingNamespace (globals : List (String × Binding)) : List (String × Binding) :=
  if (globals.map Prod.fst).contains "__builtins__" then globals
  else globals ++ [("__builtins__", Binding.builtinsModule)]

/-- execute_with_exec node (Execution Sandbox): run the code in the
restricted namespace; a raised exception or a missing output_dict key
becomes error text (str(e), with the missing key reported through the
raised-and-caught ValueError text), leaving every other field unchanged;
a finished run with the key present stores its value in output and clears
error.  The try/except wrapper makes the node total on every outcome of
running the code. -/
def execute_with_exec (env : Env) (s : State) : State :=
  match env.execRun (exec_globals env.df) s.code with
  | ExecOutcome.raised msg => { s with error := some msg }
  | ExecOutcome.finished none => { s with error := some "Missing output_dict" }
  | ExecOutcome.finished (some v) => { s with output := v, error := none }

/-- The three routing labels returned by retry_code and wired up by
create_workflow through add_conditional_edges. -/
inductive Route where
  | RETRY
  | STOP
  | END
deriving DecidableEq

/-- retry_code (Retry Governor): END when error == None, RETRY while
iterations < 3, otherwise STOP after assigning None to output. -/
def retry_code (s : State) : Route × State :=
  if s.error = none then (Route.END, s)
  else if s.iterations < 3 then (Route.RETRY, s)
  else (Route.STOP, { s with output := none })

/-- format_result node (Result Formatter): one model call over the user
question and the stored output; the returned update writes answer. -/
def format_result (env : Env) (s : State) : State :=
  { s with answer := some (env.formatLLM s.user_query s.output) }

/-- The graph nodes added by create_workflow, plus the END sentinel of
the compiled graph as the terminal node. -/
inductive Node where
  | planTask
  | executeTask
  | codeExecution
  | formatResult
  | terminal
deriving DecidableEq

/-- One transition of the compiled graph of create_workflow: START leads
to Plan Task, Plan Task to Execute Task, Execute Task to Code Execution;
after Code Execution the conditional edge dispatches on retry_code
(RETRY back to Execute Task, STOP to END, the END label to Format
Result), and Format Result reaches END. -/
def workflow_step (env : Env) : Node × State → Node × State
  | (Node.planTask, s) => (Node.executeTask, plan_task env s)
  | (Node.executeTask, s) => (Node.codeExecution, execute_task env s)
  | (Node.codeExecution, s) =>
    match retry_code (execute_with_exec env s) with
    | (Route.RETRY, t) => (Node.executeTask, t)
    | (Route.STOP, t) => (Node.terminal, t)
    | (Route.END, t) => (Node.formatResult, t)
  | (Node.formatResult, s) => (Node.terminal, format_result env s)
  | (Node.terminal, s) => (Node.terminal, s)

/-- Iterated graph transitions (n transitions, applied front first). -/
def stepN (env : Env) : Nat → Node × State → Node × State
  | 0, p => p
  | n + 1, p => stepN env n (workflow_step env p)

/-- Modelled from the spec: the per-query Session State initializer.  The
State TypedDict (src/models/state_models.py) and the entry point seeding
it are not among the sources; spec section 3 fixes the initial record:
user_query is set once at start, task_plan, code and answer are empty,
error is none (meaning not yet run), iterations is 0 (count of
code-synthesis attempts made so far) and output is none (set only on
success). -/
def initialState (q : String) : State :=
  { user_query := q, task_plan := none, code := none, error := none,
    iterations := 0, output := none, answer := none }

/-- The session trace: node and state of the compiled workflow after n
transitions on query q. -/
def run (env : Env) (q : String) : Nat → Node × State
  | 0 => (Node.planTask, initialState q)
  | n + 1 => workflow_step env (run env q n)

/-- Number of Code Synthesizer (Execute Task) invocations among the first
n transitions of the session trace. -/
def synthCount (env : Env) (q : String) : Nat → Nat
  | 0 => 0
  | n + 1 => synthCount env q n + (if (run env q n).1 = Node.executeTask then 1 else 0)

/-- Number of Execution Sandbox (Code Execution) invocations among the
first n transitions of the session trace. -/
def execCount (env : Env) (q : String) : Nat → Nat
  | 0 => 0
  | n + 1 => execCount env q n + (if (run env q n).1 = Node.codeExecution then 1 else 0)

/-- A one-column dataset used for concrete test sessions. -/
def dfTest : DataFrame :=
  { headMarkdown := "|h|", columns := ["a"], dtypes := [("a", "int64")] }

/-- Concrete environment whose exec primitive always raises with message
boom; the two synthesis modes return distinguishable code texts. -/
def envFail : Env :=
  { df := dfTest
    planLLM := fun _ _ => "PLAN"
    freshCodeLLM := fun _ _ _ => { final_code := "FRESH" }
    repairCodeLLM := fun _ => { final_code := "REPAIR" }
    formatLLM := fun _ _ => "ANSWER"
    execRun := fun _ _ => ExecOutcome.raised "boom" }

/-- Environment whose exec primitive always raises with an empty message,
as a Python exception constructed with no arguments does. -/
def envEmptyErr : Env :=
  { envFail with execRun := fun _ _ => ExecOutcome.raised "" }

/-- Environment whose exec primitive always succeeds with output_dict
bound to a non-null object. -/
def envOk : Env :=
  { envFail with execRun := fun _ _ => ExecOutcome.finished (some (some 7)) }

/-- Environment whose exec primitive always finishes without binding
output_dict. -/
def envMissing : Env :=
  { envFail with execRun := fun _ _ => ExecOutcome.finished none }

/-- Environment whose exec primitive always finishes with output_dict
bound to the Python value None. -/
def envNoneOut : Env :=
  { envFail with execRun := fun _ _ => ExecOutcome.finished (some none) }

/-- Concrete observed state: one failed attempt, non-empty error text. -/
def sErr1 : State :=
  { user_query := "q", task_plan := some "P", code := some "C",
    error := some "E", iterations := 1, output := none, answer := none }

/-- Concrete observed state: three failed attempts, non-empty error text. -/
def sErr3 : State := { sErr1 with iterations := 3 }

/-- Concrete observed state after a successful execution attempt. -/
def sOk : State := { sErr1 with error := none }

/-- Concrete observed state whose error text is the empty string. -/
def sEmptyErr : State := { sErr1 with error := some "" }

/-- Structural invariant of the session trace, by graph node: before
planning nothing has run; entering the synthesizer fewer than three
attempts were made and output is unset; entering the sandbox between one
and three attempts were made and output is unset; entering the formatter
and at termination between one and three attempts were made, with error
cleared at the formatter. -/
def inv : Node × State → Prop
  | (Node.planTask, s) => s.iterations = 0 ∧ s.error = none ∧ s.output = none
  | (Node.executeTask, s) => s.iterations < 3 ∧ s.output = none
  | (Node.codeExecution, s) => 1 ≤ s.iterations ∧ s.iterations ≤ 3 ∧ s.output = none
  | (Node.formatResult, s) => 1 ≤ s.iterations ∧ s.iterations ≤ 3 ∧ s.error = none
  | (Node.terminal, s) => 1 ≤ s.iterations ∧ s.iterations ≤ 3

/-! Basic lemmas about the node functions. -/

theorem execute_task_eq (env : Env) (s : State) :
    execute_task env s =
      { s with
          code := some (if pyTruthy s.error
            then (env.repairCodeLLM (repairInstruction s.error s.code s.task_plan)).final_code
            else (env.freshCodeLLM (df_schema_preview env.df)
              (pyStr s.task_plan) s.user_query).final_code),
          iterations := s.iterations + 1 } := by
  cases h : pyTruthy s.error <;> simp [execute_task, h]

theorem execute_with_exec_raised (env : Env) (s : State) (m : String)
    (h : env.execRun (exec_globals env.df) s.code = ExecOutcome.raised m) :
    execute_with_exec env s = { s with error := some m } := by
  simp [execute_with_exec, h]

theorem execute_with_exec_missing (env : Env) (s : State)
    (h : env.execRun (exec_globals env.df) s.code = ExecOutcome.finished none) :
    execute_with_exec env s = { s with error := some "Missing output_dict" } := by
  simp [execute_with_exec, h]

theorem execute_with_exec_success (env : Env) (s : State) (v : Option PyObj)
    (h : env.execRun (exec_globals env.df) s.code = ExecOutcome.finished (some v)) :
    execute_with_exec env s = { s with output := v, error := none } := by
  simp [execute_with_exec, h]

theorem exec_fields (env : Env) (s : State) :
    (execute_with_exec env s).user_query = s.user_query ∧
    (execute_with_exec env s).task_plan = s.task_plan ∧
    (execute_with_exec env s).code = s.code ∧
    (execute_with_exec env s).iterations = s.iterations ∧
    (execute_with_exec env s).answer = s.answer := by
  rcases h : env.execRun (exec_globals env.df) s.code with m | o
  · rw [execute_with_exec_raised env s m h]; exact ⟨rfl, rfl, rfl, rfl, rfl⟩
  · rcases o with _ | v
    · rw [execute_with_exec_missing env s h]; exact ⟨rfl, rfl, rfl, rfl, rfl⟩
    · rw [execute_with_exec_success env s v h]; exact ⟨rfl, rfl, rfl, rfl, rfl⟩

theorem retry_code_none (s : State) (h : s.error = none) :
    retry_code s = (Route.END, s) := by
  simp [retry_code, h]

theorem retry_code_retry (s : State) (h1 : s.error ≠ none) (h2 : s.iterations < 3) :
    retry_code s = (Route.RETRY, s) := by
  simp [retry_code, h1, h2]

theorem retry_code_stop (s : State) (h1 : s.error ≠ none) (h2 : ¬ s.iterations < 3) :
    retry_code s = (Route.STOP, { s with output := none }) := by
  simp [retry_code, h1, h2]

theorem retry_snd_fields (s : State) :
    ((retry_code s).2).user_query = s.user_query ∧
    ((retry_code s).2).task_plan = s.task_plan ∧
    ((retry_code s).2).code = s.code ∧
    ((retry_code s).2).error = s.error ∧
    ((retry_code s).2).iterations = s.iterations ∧
    ((retry_code s).2).answer = s.answer := by
  by_cases h1 : s.error = none
  · simp [retry_code, h1]
  · by_cases h2 : s.iterations < 3 <;> simp [retry_code, h1, h2]

/-! Lemmas about single graph transitions. -/

theorem step_codeExec_end (env : Env) (s : State)
    (h : (execute_with_exec env s).error = none) :
    workflow_step env (Node.codeExecution, s)
      = (Node.formatResult, execute_with_exec env s) := by
  show (match retry_code (execute_with_exec env s) with
        | (Route.RETRY, t) => (Node.executeTask, t)
        | (Route.STOP, t) => (Node.terminal, t)
        | (Route.END, t) => (Node.formatResult, t)) = _
  rw [retry_code_none _ h]

theorem step_codeExec_retry (env : Env) (s : State)
    (h1 : (execute_with_exec env s).error ≠ none)
    (h2 : (execute_with_exec env s).iterations < 3) :
    workflow_step env (Node.codeExecution, s)
      = (Node.executeTask, execute_with_exec env s) := by
  show (match retry_code (execute_with_exec env s) with
        | (Route.RETRY, t) => (Node.executeTask, t)
        | (Route.STOP, t) => (Node.terminal, t)
        | (Route.END, t) => (Node.formatResult, t)) = _
  rw [retry_code_retry _ h1 h2]

theorem step_codeExec_stop (env : Env) (s : State)
    (h1 : (execute_with_exec env s).error ≠ none)
    (h2 : ¬ (execute_with_exec env s).iterations < 3) :
    workflow_step env (Node.codeExecution, s)
      = (Node.terminal, { execute_with_exec env s with output := none }) := by
  show (match retry_code (execute_with_exec env s) with
        | (Route.RETRY, t) => (Node.executeTask, t)
        | (Route.STOP, t) => (Node.terminal, t)
        | (Route.END, t) => (Node.formatResult, t)) = _
  rw [retry_code_stop _ h1 h2]

theorem step_of_executeTask (env : Env) (p : Node × State)
    (h : p.1 = Node.executeTask) :
    workflow_step env p = (Node.codeExecution, execute_task env p.2) := by
  obtain ⟨a, s⟩ := p
  cases h
  rfl

theorem step_ne_plan (env : Env) (p : Node × State) :
    (workflow_step env p).1 ≠ Node.planTask := by
  obtain ⟨a, s⟩ := p
  cases a
  case codeExecution =>
    rcases hr : retry_code (execute_with_exec env s) with ⟨r, t⟩
    cases r <;> simp [workflow_step, hr]
  all_goals simp [workflow_step]

theorem step_codeExec_ne (env : Env) (s : State) :
    (workflow_step env (Node.codeExecution, s)).1 ≠ Node.codeExecution := by
  rcases hr : retry_code (execute_with_exec env s) with ⟨r, t⟩
  cases r <;> simp [workflow_step, hr]

theorem step_fields (env : Env) (p : Node × State) :
    (workflow_step env p).2.user_query = p.2.user_query ∧
    (workflow_step env p).2.iterations
      = p.2.iterations + (if p.1 = Node.executeTask then 1 else 0) ∧
    (p.1 ≠ Node.planTask → (workflow_step env p).2.task_plan = p.2.task_plan) ∧
    (p.1 ≠ Node.formatResult → (workflow_step env p).2.answer = p.2.answer) := by
  obtain ⟨a, s⟩ := p
  cases a
  case planTask => simp [workflow_step, plan_task]
  case executeTask => simp [workflow_step, execute_task_eq]
  case codeExecution =>
    rcases hr : retry_code (execute_with_exec env s) with ⟨r, t⟩
    have ht : t = (retry_code (execute_with_exec env s)).2 := by rw [hr]
    have hretry := retry_snd_fields (execute_with_exec env s)
    have hexec := exec_fields env s
    cases r <;>
      simp only [workflow_step, hr] <;>
      refine ⟨?_, ?_, fun _ => ?_, fun _ => ?_⟩ <;>
      simp only [ht, hretry.1, hretry.2.1, hretry.2.2.2.2.1, hretry.2.2.2.2.2,
        hexec.1, hexec.2.1, hexec.2.2.2.1, hexec.2.2.2.2] <;>
      simp
  case formatResult => simp [workflow_step, format_result]
  case terminal => simp [workflow_step]

/-! Lemmas about iterated transitions and the session trace. -/

theorem stepN_terminal (env : Env) (s : State) :
    ∀ n : Nat, stepN env n (Node.terminal, s) = (Node.terminal, s)
  | 0 => rfl
  | n + 1 => stepN_terminal env s n

theorem stepN_succ (env : Env) :
    ∀ (n : Nat) (p : Node × State),
      stepN env (n + 1) p = workflow_step env (stepN env n p)
  | 0, _ => rfl
  | n + 1, p => stepN_succ env n (workflow_step env p)

theorem stepN_add (env : Env) (a : Nat) :
    ∀ (b : Nat) (p : Node × State), stepN env (a + b) p = stepN env b (stepN env a p)
  | 0, _ => rfl
  | b + 1, p => by
    rw [show a + (b + 1) = (a + b) + 1 from rfl, stepN_succ, stepN_succ,
      stepN_add env a b p]

theorem run_eq_stepN (env : Env) (q : String) :
    ∀ n : Nat, run env q n = stepN env n (Node.planTask, initialState q)
  | 0 => rfl
  | n + 1 => by
    rw [show run env q (n + 1) = workflow_step env (run env q n) from rfl,
      run_eq_stepN env q n, stepN_succ]

theorem run_user_query (env : Env) (q : String) :
    ∀ n : Nat, (run env q n).2.user_query = q
  | 0 => rfl
  | n + 1 => by
    rw [show run env q (n + 1) = workflow_step env (run env q n) from rfl,
      (step_fields env (run env q n)).1, run_user_query env q n]

theorem run_node_ne_plan (env : Env) (q : String) (n : Nat) (h : 1 ≤ n) :
    (run env q n).1 ≠ Node.planTask := by
  cases n with
  | zero => omega
  | succ m =>
    rw [show run env q (m + 1) = workflow_step env (run env q m) from rfl]
    exact step_ne_plan env (run env q m)

theorem run_task_plan (env : Env) (q : String) :
    ∀ n : Nat, 1 ≤ n →
      (run env q n).2.task_plan = some (env.planLLM (df_schema_preview env.df) q)
  | 0, h => absurd h (by omega)
  | 1, _ => rfl
  | n + 2, _ => by
    rw [show run env q (n + 2) = workflow_step env (run env q (n + 1)) from rfl,
      (step_fields env (run env q (n + 1))).2.2.1
        (run_node_ne_plan env q (n + 1) (by omega)),
      run_task_plan env q (n + 1) (by omega)]

theorem run_iterations_eq_synthCount (env : Env) (q : String) :
    ∀ n : Nat, (run env q n).2.iterations = synthCount env q n
  | 0 => rfl
  | n + 1 => by
    rw [show run env q (n + 1) = workflow_step env (run env q n) from rfl,
      (step_fields env (run env q n)).2.1, run_iterations_eq_synthCount env q n,
      show synthCount env q (n + 1)
        = synthCount env q n + (if (run env q n).1 = Node.executeTask then 1 else 0)
        from rfl]

theorem inv_step (env : Env) (p : Node × State) (h : inv p) :
    inv (workflow_step env p) := by
  obtain ⟨a, s⟩ := p
  cases a
  case planTask =>
    obtain ⟨h0, _, ho⟩ := h
    exact ⟨by simp [plan_task, h0], by simp [plan_task, ho]⟩
  case executeTask =>
    obtain ⟨hlt, ho⟩ := h
    show inv (Node.codeExecution, execute_task env s)
    rw [execute_task_eq]
    exact ⟨by simp, by simp; omega, by simp [ho]⟩
  case codeExecution =>
    obtain ⟨h1, h3, ho⟩ := h
    rcases hE : env.execRun (exec_globals env.df) s.code with m | o
    · have hx := execute_with_exec_raised env s m hE
      by_cases hlt : s.iterations < 3
      · rw [step_codeExec_retry env s (by rw [hx]; simp) (by rw [hx]; simpa using hlt)]
        rw [hx]
        exact ⟨by simpa using hlt, by simpa using ho⟩
      · rw [step_codeExec_stop env s (by rw [hx]; simp) (by rw [hx]; simpa using hlt)]
        rw [hx]
        exact ⟨by simpa using h1, by simpa using h3⟩
    · rcases o with _ | v
      · have hx := execute_with_exec_missing env s hE
        by_cases hlt : s.iterations < 3
        · rw [step_codeExec_retry env s (by rw [hx]; simp) (by rw [hx]; simpa using hlt)]
          rw [hx]
          exact ⟨by simpa using hlt, by simpa using ho⟩
        · rw [step_codeExec_stop env s (by rw [hx]; simp) (by rw [hx]; simpa using hlt)]
          rw [hx]
          exact ⟨by simpa using h1, by simpa using h3⟩
      · have hx := execute_with_exec_success env s v hE
        rw [step_codeExec_end env s (by rw [hx])]
        rw [hx]
        exact ⟨by simpa using h1, by simpa using h3, by simp⟩
  case formatResult =>
    obtain ⟨h1, h3, _⟩ := h
    exact ⟨by simpa [format_result] using h1, by simpa [format_result] using h3⟩
  case terminal => exact h

theorem inv_run (env : Env) (q : String) : ∀ n : Nat, inv (run env q n)
  | 0 => ⟨rfl, rfl, rfl⟩
  | n + 1 => inv_step env (run env q n) (inv_run env q n)

theorem run_iterations_le (env : Env) (q : String) (n : Nat) :
    (run env q n).2.iterations ≤ 3 := by
  have hinv := inv_run env q n
  rcases hE : run env q n with ⟨a, s⟩
  rw [hE] at hinv
  cases a <;> simp [inv] at hinv ⊢ <;> omega

theorem synthCount_le (env : Env) (q : String) (n : Nat) :
    synthCount env q n ≤ 3 := by
  rw [← run_iterations_eq_synthCount]
  exact run_iterations_le env q n

theorem execCount_aux (env : Env) (q : String) :
    ∀ n : Nat,
      execCount env q n + (if (run env q n).1 = Node.codeExecution then 1 else 0)
        ≤ synthCount env q n
  | 0 => by simp [execCount, synthCount, run, initialState]
  | n + 1 => by
    have ih := execCount_aux env q n
    have hstep : run env q (n + 1) = workflow_step env (run env q n) := rfl
    have hec : execCount env q (n + 1)
        = execCount env q n + (if (run env q n).1 = Node.codeExecution then 1 else 0) :=
      rfl
    have hsc : synthCount env q (n + 1)
        = synthCount env q n + (if (run env q n).1 = Node.executeTask then 1 else 0) :=
      rfl
    rcases hE : run env q n with ⟨a, s⟩
    rw [hE] at ih hstep hec hsc
    cases a
    case planTask =>
      rw [hec, hsc, hstep]
      simp only [workflow_step]
      simp at ih ⊢
      omega
    case executeTask =>
      rw [hec, hsc, hstep]
      simp only [workflow_step]
      simp at ih ⊢
      omega
    case codeExecution =>
      have hne := step_codeExec_ne env s
      rw [hec, hsc, hstep]
      simp only [if_neg hne]
      simp at ih ⊢
      omega
    case formatResult =>
      rw [hec, hsc, hstep]
      simp only [workflow_step]
      simp at ih ⊢
      omega
    case terminal =>
      rw [hec, hsc, hstep]
      simp only [workflow_step]
      simp at ih ⊢
      omega

theorem execCount_le (env : Env) (q : String) (n : Nat) :
    execCount env q n ≤ 3 := by
  have h := execCount_aux env q n
  have h2 := synthCount_le env q n
  omega

/-! Lemmas about sessions in which every execution attempt fails. -/

theorem fail_exec (env : Env) (s : State)
    (hFail : ∀ (c : Option String) (v : Option PyObj),
      env.execRun (exec_globals env.df) c ≠ ExecOutcome.finished (some v)) :
    ∃ m : String, execute_with_exec env s = { s with error := some m } := by
  rcases hE : env.execRun (exec_globals env.df) s.code with m | o
  · exact ⟨m, execute_with_exec_raised env s m hE⟩
  · rcases o with _ | v
    · exact ⟨"Missing output_dict", execute_with_exec_missing env s hE⟩
    · exact absurd hE (hFail s.code v)

theorem run_two (env : Env) (q : String) :
    ∃ s : State, run env q 2 = (Node.codeExecution, s) ∧
      s.iterations = 1 ∧ s.output = none ∧ s.answer = none := by
  refine ⟨execute_task env (plan_task env (initialState q)), rfl, ?_, ?_, ?_⟩ <;>
    simp [execute_task_eq, plan_task, initialState]

theorem fail_round (env : Env)
    (hFail : ∀ (c : Option String) (v : Option PyObj),
      env.execRun (exec_globals env.df) c ≠ ExecOutcome.finished (some v))
    (s : State) (hlt : s.iterations < 3) :
    ∃ t : State, stepN env 2 (Node.codeExecution, s) = (Node.codeExecution, t) ∧
      t.iterations = s.iterations + 1 ∧ t.output = s.output ∧ t.answer = s.answer := by
  obtain ⟨m, hm⟩ := fail_exec env s hFail
  have h1 : workflow_step env (Node.codeExecution, s)
      = (Node.executeTask, { s with error := some m }) := by
    rw [step_codeExec_retry env s (by rw [hm]; simp) (by rw [hm]; simpa using hlt), hm]
  refine ⟨execute_task env { s with error := some m }, ?_, ?_, ?_, ?_⟩
  · show workflow_step env (workflow_step env (Node.codeExecution, s)) = _
    rw [h1]
    rfl
  · rw [execute_task_eq]
  · rw [execute_task_eq]
  · rw [execute_task_eq]

theorem fail_finish (env : Env)
    (hFail : ∀ (c : Option String) (v : Option PyObj),
      env.execRun (exec_globals env.df) c ≠ ExecOutcome.finished (some v))
    (s : State) (hge : ¬ s.iterations < 3) :
    ∃ t : State, workflow_step env (Node.codeExecution, s) = (Node.terminal, t) ∧
      t.output = none ∧ t.answer = s.answer := by
  obtain ⟨m, hm⟩ := fail_exec env s hFail
  refine ⟨{ s with error := some m, output := none }, ?_, rfl, rfl⟩
  rw [step_codeExec_stop env s (by rw [hm]; simp) (by rw [hm]; simpa using hge), hm]

/-! Claim theorems. -/

/-- C1: the Retry Governor is a pure function of (error, iterations): its
route depends on nothing else; error none routes END to formatting; a
non-none error with iterations < 3 routes RETRY back to the Code
Synthesizer; a non-none error with iterations >= 3 routes STOP after
clearing output to none, and from the terminal node no further synthesis
or execution transition ever occurs. -/
theorem retry_governor_spec :
    (∀ s t : State, s.error = t.error → s.iterations = t.iterations →
      (retry_code s).1 = (retry_code t).1) ∧
    (∀ s : State, s.error = none → retry_code s = (Route.END, s)) ∧
    (∀ s : State, s.error ≠ none → s.iterations < 3 →
      retry_code s = (Route.RETRY, s)) ∧
    (∀ s : State, s.error ≠ none → 3 ≤ s.iterations →
      retry_code s = (Route.STOP, { s with output := none })) ∧
    (∀ (env : Env) (s : State), (execute_with_exec env s).error = none →
      workflow_step env (Node.codeExecution, s)
        = (Node.formatResult, execute_with_exec env s)) ∧
    (∀ (env : Env) (s : State), (execute_with_exec env s).error ≠ none →
      (execute_with_exec env s).iterations < 3 →
      workflow_step env (Node.codeExecution, s)
        = (Node.executeTask, execute_with_exec env s)) ∧
    (∀ (env : Env) (s : State), (execute_with_exec env s).error ≠ none →
      3 ≤ (execute_with_exec env s).iterations →
      workflow_step env (Node.codeExecution, s)
        = (Node.terminal, { execute_with_exec env s with output := none })) ∧
    (∀ (env : Env) (s : State) (n : Nat),
      stepN env n (Node.terminal, s) = (Node.terminal, s)) := by
  refine ⟨?_, retry_code_none, retry_code_retry, ?_, step_codeExec_end, step_codeExec_retry,
    ?_, fun env s n => stepN_terminal env s n⟩
  · intro s t he hi
    by_cases h1 : s.error = none
    · rw [retry_code_none s h1, retry_code_none t (he ▸ h1)]
    · by_cases h2 : s.iterations < 3
      · rw [retry_code_retry s h1 h2, retry_code_retry t (he ▸ h1) (hi ▸ h2)]
      · rw [retry_code_stop s h1 h2, retry_code_stop t (he ▸ h1) (hi ▸ h2)]
  · intro s h1 h2
    exact retry_code_stop s h1 (by omega)
  · intro env s h1 h2
    exact step_codeExec_stop env s h1 (by omega)

/-- Witness for C1 at concrete inputs: a success state routes END, a
once-failed state routes RETRY, a thrice-failed state routes STOP with
output cleared, the route ignores the code field, the graph follows the
three routes, and five further transitions from the terminal node change
nothing. -/
theorem retry_governor_spec_witness :
    retry_code sOk = (Route.END, sOk) ∧
    retry_code sErr1 = (Route.RETRY, sErr1) ∧
    retry_code sErr3 = (Route.STOP, { sErr3 with output := none }) ∧
    (retry_code sErr1).1 = (retry_code { sErr1 with code := some "other" }).1 ∧
    workflow_step envOk (Node.codeExecution, sOk)
      = (Node.formatResult, execute_with_exec envOk sOk) ∧
    workflow_step envFail (Node.codeExecution, sErr1)
      = (Node.executeTask, execute_with_exec envFail sErr1) ∧
    workflow_step envFail (Node.codeExecution, sErr3)
      = (Node.terminal, { execute_with_exec envFail sErr3 with output := none }) ∧
    stepN envFail 5 (Node.terminal, sOk) = (Node.terminal, sOk) := by
  obtain ⟨h1, h2, h3, h4, h5, h6, h7, h8⟩ := retry_governor_spec
  exact ⟨h2 sOk (by decide), h3 sErr1 (by decide) (by decide),
    h4 sErr3 (by decide) (by decide),
    h1 sErr1 { sErr1 with code := some "other" } rfl rfl,
    h5 envOk sOk (by decide), h6 envFail sErr1 (by decide) (by decide),
    h7 envFail sErr3 (by decide) (by decide), h8 envFail sOk 5⟩

/-- C2: in every reachable state of every session iterations never
exceeds 3 and always equals the number of Code Synthesizer invocations
made so far (hence a 4th synthesis attempt never occurs), and at session
completion it is between 1 and 3 inclusive. -/
theorem iterations_budget_spec (env : Env) (q : String) (n : Nat) :
    (run env q n).2.iterations ≤ 3 ∧
    (run env q n).2.iterations = synthCount env q n ∧
    synthCount env q n ≤ 3 ∧
    ((run env q n).1 = Node.terminal →
      1 ≤ (run env q n).2.iterations ∧ (run env q n).2.iterations ≤ 3) := by
  refine ⟨run_iterations_le env q n, run_iterations_eq_synthCount env q n,
    synthCount_le env q n, fun hT => ⟨?_, run_iterations_le env q n⟩⟩
  have hinv := inv_run env q n
  rcases hE : run env q n with ⟨a, s⟩
  rw [hE] at hinv hT
  cases hT
  simpa using hinv.1

/-- Witness for C2 on a concrete completed session: with an exec
primitive that always raises, the trace is at the terminal node after
seven transitions and every conjunct holds there. -/
theorem iterations_budget_spec_witness :
    (run envFail "q" 7).2.iterations ≤ 3 ∧
    (run envFail "q" 7).2.iterations = synthCount envFail "q" 7 ∧
    synthCount envFail "q" 7 ≤ 3 ∧
    (1 ≤ (run envFail "q" 7).2.iterations ∧ (run envFail "q" 7).2.iterations ≤ 3) := by
  obtain ⟨h1, h2, h3, h4⟩ := iterations_budget_spec envFail "q" 7
  exact ⟨h1, h2, h3, h4 (by decide)⟩

/-- C4: when every execution attempt fails, the session is at the
terminal node after the seven transitions of three failed rounds, with
output none and no answer; every later point of the trace is identical,
and no session ever performs more than three Code Synthesizer or three
Execution Sandbox invocations. -/
theorem all_attempts_fail_spec (env : Env) (q : String)
    (hFail : ∀ (c : Option String) (v : Option PyObj),
      env.execRun (exec_globals env.df) c ≠ ExecOutcome.finished (some v)) :
    (run env q 7).1 = Node.terminal ∧
    (run env q 7).2.output = none ∧
    (run env q 7).2.answer = none ∧
    (∀ n : Nat, synthCount env q n ≤ 3 ∧ execCount env q n ≤ 3) ∧
    (∀ n : Nat, run env q (7 + n) = run env q 7) := by
  obtain ⟨s1, h2, hi1, ho1, ha1⟩ := run_two env q
  obtain ⟨s2, hr1, hi2, ho2, ha2⟩ := fail_round env hFail s1 (by omega)
  obtain ⟨s3, hr2, hi3, ho3, ha3⟩ := fail_round env hFail s2 (by omega)
  obtain ⟨s4, hf, ho4, ha4⟩ := fail_finish env hFail s3 (by omega)
  have h4 : run env q 4 = (Node.codeExecution, s2) := by
    have e : run env q 4 = stepN env 2 (run env q 2) := by
      rw [run_eq_stepN env q 4, run_eq_stepN env q 2,
        show (4 : Nat) = 2 + 2 from rfl, stepN_add]
    rw [e, h2, hr1]
  have h6 : run env q 6 = (Node.codeExecution, s3) := by
    have e : run env q 6 = stepN env 2 (run env q 4) := by
      rw [run_eq_stepN env q 6, run_eq_stepN env q 4,
        show (6 : Nat) = 4 + 2 from rfl, stepN_add]
    rw [e, h4, hr2]
  have h7 : run env q 7 = (Node.terminal, s4) := by
    rw [show run env q 7 = workflow_step env (run env q 6) from rfl, h6, hf]
  refine ⟨by rw [h7], by rw [h7]; exact ho4, ?_, ?_, ?_⟩
  · rw [h7]
    show s4.answer = none
    rw [ha4, ha3, ha2, ha1]
  · exact fun n => ⟨synthCount_le env q n, execCount_le env q n⟩
  · intro n
    calc run env q (7 + n) = stepN env n (stepN env 7 (Node.planTask, initialState q)) := by
          rw [run_eq_stepN env q (7 + n), stepN_add]
      _ = stepN env n (run env q 7) := by rw [← run_eq_stepN]
      _ = stepN env n (Node.terminal, s4) := by rw [h7]
      _ = (Node.terminal, s4) := stepN_terminal env s4 n
      _ = run env q 7 := h7.symm

/-- Witness for C4: the concrete always-raising environment reaches the
terminal node after seven transitions with output none and no answer,
performs at most three synthesis and three execution invocations, and is
unchanged two transitions later. -/
theorem all_attempts_fail_spec_witness :
    (run envFail "q" 7).1 = Node.terminal ∧
    (run envFail "q" 7).2.output = none ∧
    (run envFail "q" 7).2.answer = none ∧
    (synthCount envFail "q" 9 ≤ 3 ∧ execCount envFail "q" 9 ≤ 3) ∧
    run envFail "q" (7 + 2) = run envFail "q" 7 := by
  obtain ⟨h1, h2, h3, h4, h5⟩ :=
    all_attempts_fail_spec envFail "q" (fun c v h => ExecOutcome.noConfusion h)
  exact ⟨h1, h2, h3, h4 9, h5 2⟩

/-- C3 counterexample: when the generated code binds output_dict to the
Python value None, the execution attempt reports success with error none
and output none, so at that observation point neither field is non-empty
and the exactly-one property of the claim fails. -/
theorem error_output_exclusive_counterexample :
    (run envNoneOut "q" 2).1 = Node.codeExecution ∧
    ¬ (((execute_with_exec envNoneOut (run envNoneOut "q" 2).2).error = none ∧
        (execute_with_exec envNoneOut (run envNoneOut "q" 2).2).output ≠ none) ∨
       ((execute_with_exec envNoneOut (run envNoneOut "q" 2).2).error ≠ none ∧
        (execute_with_exec envNoneOut (run envNoneOut "q" 2).2).output = none)) := by
  exact ⟨rfl, by decide⟩

/-- C3 amended: after every execution attempt of every session, error and
output are never both non-empty; on failure (raised exception or missing
output_dict) error is set and output is none, and on success error is
none and output holds exactly the value bound to output_dict, which is
empty in the single case where that value is the Python value None. -/
theorem error_output_exclusive_amended (env : Env) (q : String) (n : Nat)
    (h : (run env q n).1 = Node.codeExecution) :
    ¬ ((execute_with_exec env (run env q n).2).error ≠ none ∧
       (execute_with_exec env (run env q n).2).output ≠ none) ∧
    (∀ m : String,
      env.execRun (exec_globals env.df) (run env q n).2.code = ExecOutcome.raised m →
      (execute_with_exec env (run env q n).2).error = some m ∧
      (execute_with_exec env (run env q n).2).output = none) ∧
    (env.execRun (exec_globals env.df) (run env q n).2.code = ExecOutcome.finished none →
      (execute_with_exec env (run env q n).2).error = some "Missing output_dict" ∧
      (execute_with_exec env (run env q n).2).output = none) ∧
    (∀ v : Option PyObj,
      env.execRun (exec_globals env.df) (run env q n).2.code
        = ExecOutcome.finished (some v) →
      (execute_with_exec env (run env q n).2).error = none ∧
      (execute_with_exec env (run env q n).2).output = v) := by
  have hinv := inv_run env q n
  rcases hE : run env q n with ⟨a, s⟩
  rw [hE] at hinv h
  have ha : a = Node.codeExecution := h
  subst ha
  have ho : s.output = none := hinv.2.2
  refine ⟨?_, ?_, ?_, ?_⟩
  · rintro ⟨he, hout⟩
    rcases hX : env.execRun (exec_globals env.df) s.code with m | o
    · rw [execute_with_exec_raised env s m hX] at hout
      exact hout ho
    · rcases o with _ | v
      · rw [execute_with_exec_missing env s hX] at hout
        exact hout ho
      · rw [execute_with_exec_success env s v hX] at he
        exact he rfl
  · intro m hX
    rw [execute_with_exec_raised env s m hX]
    exact ⟨rfl, ho⟩
  · intro hX
    rw [execute_with_exec_missing env s hX]
    exact ⟨rfl, ho⟩
  · intro v hX
    rw [execute_with_exec_success env s v hX]
    exact ⟨rfl, rfl⟩

/-- Witness for the amended C3 on a concrete session whose execution
raises with message boom at the observation point after the first
attempt. -/
theorem error_output_exclusive_amended_witness :
    ¬ ((execute_with_exec envFail (run envFail "q" 2).2).error ≠ none ∧
       (execute_with_exec envFail (run envFail "q" 2).2).output ≠ none) ∧
    ((execute_with_exec envFail (run envFail "q" 2).2).error = some "boom" ∧
     (execute_with_exec envFail (run envFail "q" 2).2).output = none) := by
  obtain ⟨h1, h2, _, _⟩ := error_output_exclusive_amended envFail "q" 2 rfl
  exact ⟨h1, h2 "boom" rfl⟩

/-- C5 counterexample: a raised exception whose textual description is
the empty string (as a Python exception constructed without arguments
produces) gives an observed state on which the Retry Governor chooses
retry, yet the immediately following Code Synthesizer invocation takes
the fresh-generation branch, not the repair branch. -/
theorem retry_repair_mode_counterexample :
    (run envEmptyErr "q" 3).1 = Node.executeTask ∧
    (run envEmptyErr "q" 3).2.error = some "" ∧
    (retry_code (run envEmptyErr "q" 3).2).1 = Route.RETRY ∧
    (run envEmptyErr "q" 4).2.code
      = some ((envEmptyErr.freshCodeLLM (df_schema_preview envEmptyErr.df)
          (pyStr (run envEmptyErr "q" 3).2.task_plan)
          (run envEmptyErr "q" 3).2.user_query).final_code) ∧
    (run envEmptyErr "q" 4).2.code
      ≠ some ((envEmptyErr.repairCodeLLM
          (repairInstruction (run envEmptyErr "q" 3).2.error
            (run envEmptyErr "q" 3).2.code
            (run envEmptyErr "q" 3).2.task_plan)).final_code) := by
  exact ⟨rfl, rfl, rfl, rfl, by decide⟩

/-- C5 amended: whenever the Retry Governor chooses retry and the error
text is non-empty, the immediately following Code Synthesizer invocation
runs in repair mode, consuming the prior code, the prior error text and
the task plan; fresh-generation mode is selected exactly when error is
none or the empty string, so a retry triggered by an empty error text
runs a fresh generation instead. -/
theorem retry_repair_mode_amended :
    (∀ (env : Env) (s : State), (retry_code s).1 = Route.RETRY → s.error ≠ some "" →
      execute_task env s
        = { s with
              code := some ((env.repairCodeLLM
                (repairInstruction s.error s.code s.task_plan)).final_code),
              iterations := s.iterations + 1 }) ∧
    (∀ (env : Env) (s : State), s.error = none ∨ s.error = some "" →
      execute_task env s
        = { s with
              code := some ((env.freshCodeLLM (df_schema_preview env.df)
                (pyStr s.task_plan) s.user_query).final_code),
              iterations := s.iterations + 1 }) := by
  constructor
  · intro env s hr hne
    have herr : s.error ≠ none := by
      intro h
      rw [retry_code_none s h] at hr
      exact Route.noConfusion hr
    have ht : pyTruthy s.error = true := by
      rcases he : s.error with _ | t
      · exact absurd he herr
      · have : t ≠ "" := fun h => hne (by rw [he, h])
        simpa [pyTruthy] using this
    simp [execute_task, ht]
  · intro env s hr
    have ht : pyTruthy s.error = false := by
      rcases hr with h | h <;> simp [pyTruthy, h]
    simp [execute_task, ht]

/-- Witness for the amended C5: on the concrete once-failed state with
non-empty error text the governor retries and the synthesizer produces
the repair-mode output, and on the empty-string-error state it produces
the fresh-mode output. -/
theorem retry_repair_mode_amended_witness :
    execute_task envFail sErr1
      = { sErr1 with
            code := some ((envFail.repairCodeLLM
              (repairInstruction sErr1.error sErr1.code sErr1.task_plan)).final_code),
            iterations := sErr1.iterations + 1 } ∧
    execute_task envFail sEmptyErr
      = { sEmptyErr with
            code := some ((envFail.freshCodeLLM (df_schema_preview envFail.df)
              (pyStr sEmptyErr.task_plan) sEmptyErr.user_query).final_code),
            iterations := sEmptyErr.iterations + 1 } := by
  obtain ⟨h1, h2⟩ := retry_repair_mode_amended
  exact ⟨h1 envFail sErr1 (by decide) (by decide),
    h2 envFail sEmptyErr (Or.inr (by decide))⟩

/-- C6: when the synthesized code finishes without raising but never
binds output_dict, the Execution Sandbox reports the missing-output
execution error (the text of the raised-and-caught ValueError), leaves
output untouched, and does not report success. -/
theorem missing_output_error_spec (env : Env) (s : State)
    (h : env.execRun (exec_globals env.df) s.code = ExecOutcome.finished none) :
    execute_with_exec env s = { s with error := some "Missing output_dict" } ∧
    (execute_with_exec env s).error ≠ none ∧
    (execute_with_exec env s).output = s.output := by
  rw [execute_with_exec_missing env s h]
  exact ⟨rfl, by simp, rfl⟩

/-- Witness for C6: the concrete environment whose exec always finishes
without binding output_dict yields the missing-output error on the
concrete success-shaped state. -/
theorem missing_output_error_spec_witness :
    execute_with_exec envMissing sOk = { sOk with error := some "Missing output_dict" } ∧
    (execute_with_exec envMissing sOk).error ≠ none ∧
    (execute_with_exec envMissing sOk).output = sOk.output := by
  exact missing_output_error_spec envMissing sOk rfl

/-- C7: task_plan is written exactly once per session, by the Plan
Synthesizer: no other node changes it, from the first transition onward
it permanently equals the originally synthesized plan, and the plan text
embedded in every repair-mode prompt is that original plan. -/
theorem task_plan_immutable_spec :
    (∀ (env : Env) (s : State), (execute_task env s).task_plan = s.task_plan) ∧
    (∀ (env : Env) (s : State), (execute_with_exec env s).task_plan = s.task_plan) ∧
    (∀ s : State, ((retry_code s).2).task_plan = s.task_plan) ∧
    (∀ (env : Env) (s : State), (format_result env s).task_plan = s.task_plan) ∧
    (∀ (env : Env) (q : String) (n : Nat), 1 ≤ n →
      (run env q n).2.task_plan = some (env.planLLM (df_schema_preview env.df) q)) ∧
    (∀ (env : Env) (q : String) (n : Nat),
      (run env q n).1 = Node.executeTask → pyTruthy (run env q n).2.error = true →
      (run env q (n + 1)).2.code
        = some ((env.repairCodeLLM
            (repairInstruction (run env q n).2.error (run env q n).2.code
              (some (env.planLLM (df_schema_preview env.df) q)))).final_code)) := by
  refine ⟨fun env s => by rw [execute_task_eq],
    fun env s => (exec_fields env s).2.1,
    fun s => (retry_snd_fields s).2.1,
    fun env s => rfl,
    run_task_plan, ?_⟩
  intro env q n hnode htruthy
  have hn : 1 ≤ n := by
    cases n with
    | zero => exact absurd hnode (by simp [run, initialState])
    | succ m => omega
  have hplan := run_task_plan env q n hn
  have hstep : run env q (n + 1) = (Node.codeExecution, execute_task env (run env q n).2) := by
    rw [show run env q (n + 1) = workflow_step env (run env q n) from rfl,
      step_of_executeTask env (run env q n) hnode]
  rw [hstep]
  show (execute_task env (run env q n).2).code = _
  rw [execute_task_eq]
  simp only [htruthy, if_true, hplan]

/-- Witness for C7: on the always-raising concrete session the plan after
the first transition is the original plan, and the repair prompt of the
second attempt embeds it together with the prior code and error. -/
theorem task_plan_immutable_spec_witness :
    (run envFail "q" 1).2.task_plan
      = some (envFail.planLLM (df_schema_preview envFail.df) "q") ∧
    (run envFail "q" 4).2.code
      = some ((envFail.repairCodeLLM
          (repairInstruction (run envFail "q" 3).2.error (run envFail "q" 3).2.code
            (some (envFail.planLLM (df_schema_preview envFail.df) "q")))).final_code) := by
  obtain ⟨_, _, _, _, h5, h6⟩ := task_plan_immutable_spec
  exact ⟨h5 envFail "q" 1 (by omega), h6 envFail "q" 3 rfl rfl⟩

/-- C8: every Code Synthesizer invocation, in either mode, increments
iterations by exactly one and overwrites code with the structured output
of the selected mode; no other node changes iterations, and iterations
never decreases along any graph transition. -/
theorem iterations_increment_spec :
    (∀ (env : Env) (s : State), (execute_task env s).iterations = s.iterations + 1) ∧
    (∀ (env : Env) (s : State), (execute_task env s).code
      = some (if pyTruthy s.error
          then (env.repairCodeLLM (repairInstruction s.error s.code s.task_plan)).final_code
          else (env.freshCodeLLM (df_schema_preview env.df)
            (pyStr s.task_plan) s.user_query).final_code)) ∧
    (∀ (env : Env) (s : State), (plan_task env s).iterations = s.iterations) ∧
    (∀ (env : Env) (s : State), (execute_with_exec env s).iterations = s.iterations) ∧
    (∀ s : State, ((retry_code s).2).iterations = s.iterations) ∧
    (∀ (env : Env) (s : State), (format_result env s).iterations = s.iterations) ∧
    (∀ (env : Env) (p : Node × State),
      p.2.iterations ≤ (workflow_step env p).2.iterations) := by
  refine ⟨fun env s => by rw [execute_task_eq], fun env s => by rw [execute_task_eq],
    fun env s => rfl, fun env s => (exec_fields env s).2.2.2.1,
    fun s => (retry_snd_fields s).2.2.2.2.1, fun env s => rfl, ?_⟩
  intro env p
  rw [(step_fields env p).2.1]
  omega

/-- C9 counterexample: the namespace in which the synthesized code
actually executes is not the seven-entry dict the program built, because
the exec primitive injects a __builtins__ binding into a globals dict
without that key; the injected binding is an eighth name, it is not one
of the allow-list values, and through it generated code reaches the host
environment beyond the allow-list, refuting the no-other-bindings claim
at the concrete dataset. -/
theorem exec_namespace_allowlist_counterexample :
    (executingNamespace (exec_globals dfTest)).map Prod.fst
      ≠ ["df", "pd", "px", "np", "re", "dt", "go"] ∧
    ("__builtins__", Binding.builtinsModule) ∈ executingNamespace (exec_globals dfTest) ∧
    Binding.builtinsModule ∉ specAllowList dfTest := by
  exact ⟨by decide, by decide, by decide⟩

/-- C9 amended: the globals dict the program constructs and passes to
exec contains exactly the dataset binding df and the fixed allow-list of
utilities under their seven distinct fixed names, with values exactly the
allow-list the spec enumerates; the namespace in which the code actually
executes, however, is that dict plus the one __builtins__ binding the
exec primitive injects, so generated code sees the seven allow-list
bindings and the injected builtins and nothing else. -/
theorem exec_namespace_allowlist_amended (df : DataFrame) :
    (exec_globals df).map Prod.fst = ["df", "pd", "px", "np", "re", "dt", "go"] ∧
    (exec_globals df).map Prod.snd = specAllowList df ∧
    ((exec_globals df).map Prod.fst).Nodup ∧
    executingNamespace (exec_globals df)
      = exec_globals df ++ [("__builtins__", Binding.builtinsModule)] ∧
    (executingNamespace (exec_globals df)).map Prod.fst
      = ["df", "pd", "px", "np", "re", "dt", "go", "__builtins__"] := by
  refine ⟨rfl, rfl, ?_, rfl, rfl⟩
  rw [show (exec_globals df).map Prod.fst = ["df", "pd", "px", "np", "re", "dt", "go"]
    from rfl]
  decide

/-- C10: the execution step is total on every session state: whatever the
outcome of running the code, code and iterations are returned unchanged,
a raised exception becomes its textual description in error, and the
missing-output check becomes the corresponding error text. -/
theorem exec_step_total_spec (env : Env) (s : State) :
    (execute_with_exec env s).code = s.code ∧
    (execute_with_exec env s).iterations = s.iterations ∧
    (∀ m : String, env.execRun (exec_globals env.df) s.code = ExecOutcome.raised m →
      execute_with_exec env s = { s with error := some m }) ∧
    (env.execRun (exec_globals env.df) s.code = ExecOutcome.finished none →
      execute_with_exec env s = { s with error := some "Missing output_dict" }) := by
  exact ⟨(exec_fields env s).2.2.1, (exec_fields env s).2.2.2.1,
    fun m h => execute_with_exec_raised env s m h,
    fun h => execute_with_exec_missing env s h⟩

/-- Witness for C10 at concrete inputs: a raising exec yields its message
as error on the concrete state, and a finishing exec without output_dict
yields the missing-output error. -/
theorem exec_step_total_spec_witness :
    execute_with_exec envFail sErr1 = { sErr1 with error := some "boom" } ∧
    execute_with_exec envMissing sErr1
      = { sErr1 with error := some "Missing output_dict" } := by
  exact ⟨(exec_step_total_spec envFail sErr1).2.2.1 "boom" rfl,
    (exec_step_total_spec envMissing sErr1).2.2.2 rfl⟩

end VizWorkflow
